import Mathlib

/-!
Verification of the MuhammadUsmanGM/Skills_Assignment repository against its
natural-language specification.

The repository is a collection of standalone Node utility scripts.  The
specification's central component, the "Specification Scorer"
(`check-completeness.js`, declared as a key script of the
api-documentation-generator skill in `README.md` but not shipped in the
source tree), is modelled here from the specification text (spec.md §3,
§4.1, §6).  All other definitions are shallow embeddings of the JavaScript
source that is present:

  * `Validate`  — `validateSpec` and the validate-spec main execution
                  (generate-openapi.js, validate-spec section)
  * `ExportDocs`— `exportDocs` dispatch and the export-docs main execution
                  (unnamed/part_004)
  * `Coverage`  — the percentage computations of `analyzeCoverageReport`
                  and `generateCoverageReport` (test-coverage analyzer)
  * `SchemaGen` — `getTypeDefinition` (unnamed/part_006)

Machine numbers are modelled as `Nat`/`Int`/`ℚ`; JavaScript real-valued
percentages appear as `ℚ` in specification-level definitions, with proved
bridges to the integer arithmetic used by the executable embeddings.
-/

namespace Scorer

/-- Modelled from the spec: the eight HTTP verbs that every script in the
repository recognizes (`generate-openapi.js` validate-spec section line 630,
`unnamed/part_004` line 86).  The spec speaks of "nine recognized HTTP
verbs" but no nine-element set occurs anywhere in the repository; the list
below is the set used by the source, in the validate-spec order. -/
def validMethods : List String :=
  ["get", "put", "post", "delete", "options", "head", "patch", "trace"]

/-- Modelled from the spec: one media-type entry of a response
`content` map: `content.<type>.examples` presence and
`content.<type>.schema.example`. -/
structure MediaTypeObj where
  examplesPresent : Bool
  schemaExample : Option String
deriving DecidableEq

/-- Modelled from the spec: a Response with optional `description` and
optional `content{mediaType -> ...}`. -/
structure Response where
  description : Option String
  content : Option (List (String × MediaTypeObj))
deriving DecidableEq

/-- Modelled from the spec: an operation parameter with `name`, `in`
(called `loc` here because `in` is reserved), `required`, optional
`description` and optional `example` / `schema.example`. -/
structure Param where
  name : String
  loc : String
  required : Bool
  description : Option String
  exampleVal : Option String
  schemaExample : Option String
deriving DecidableEq

/-- Modelled from the spec: an Operation with optional `summary`,
`description`, `parameters[]`, `requestBody` and
`responses{statusCode -> Response}`. -/
structure Operation where
  summary : Option String
  description : Option String
  parameters : Option (List Param)
  requestBody : Bool := false
  responses : Option (List (String × Response))
deriving DecidableEq

/-- Modelled from the spec: one property of a schema, carrying an optional
`example`. -/
structure SchemaProp where
  exampleVal : Option String
deriving DecidableEq

/-- Modelled from the spec: a component schema with optional `description`,
optional top-level `example` and a property map. -/
structure SchemaObj where
  description : Option String
  exampleVal : Option String
  properties : List (String × SchemaProp)
deriving DecidableEq

/-- Modelled from the spec: a security scheme; the scorer only reads its
optional `description`. -/
structure SecurityScheme where
  description : Option String
deriving DecidableEq

/-- Modelled from the spec: `components{schemas{}, securitySchemes{}}`,
each sub-map optional. -/
structure Components where
  schemas : Option (List (String × SchemaObj))
  securitySchemes : Option (List (String × SecurityScheme))
deriving DecidableEq

/-- Modelled from the spec: `info {title, version, description}`, every
field optional. -/
structure Info where
  title : Option String
  version : Option String
  description : Option String
deriving DecidableEq

/-- Modelled from the spec: the Specification Document of §3 — a tree with
optional top-level fields `info`, `servers[]`, `tags[]`, `externalDocs`,
`paths{path -> {method -> Operation}}` and `components`.  Maps are ordered
association lists, matching JavaScript object-key enumeration order. -/
structure Document where
  info : Option Info
  servers : Option (List String)
  tags : Option (List String)
  externalDocs : Bool
  paths : Option (List (String × List (String × Operation)))
  components : Option Components
deriving DecidableEq

/-- Modelled from the spec: the Report — ordered issues, ordered
suggestions and an integer score. -/
structure Report where
  issues : List String
  suggestions : List String
  score : Int
deriving DecidableEq

/-- Modelled from the spec: the operations visited by the paths check —
every `(path, method, operation)` triple whose method key is a recognized
HTTP verb, in document order. -/
def recognizedOps (p : List (String × List (String × Operation))) : List Operation :=
  p.flatMap (fun pe => (pe.2.filter (fun me => me.1 ∈ validMethods)).map (fun me => me.2))

/-- Modelled from the spec: an operation counts as described when it has a
`summary` or a `description`. -/
def isDescribed (op : Operation) : Bool :=
  op.summary.isSome || op.description.isSome

/-- Modelled from the spec: a response carries an example when some
`content.<type>.examples` or `content.<type>.schema.example` is present. -/
def respHasExample (r : Response) : Bool :=
  match r.content with
  | none => false
  | some cs => cs.any (fun c => c.2.examplesPresent || c.2.schemaExample.isSome)

/-- Modelled from the spec: an operation counts as exampled (at most once)
when at least one of its responses carries an example. -/
def isExampled (op : Operation) : Bool :=
  match op.responses with
  | none => false
  | some rs => rs.any (fun re => respHasExample re.2)

/-- Modelled from the spec: count of visited operations. -/
def totalOps (d : Document) : Nat :=
  match d.paths with
  | none => 0
  | some p => (recognizedOps p).length

/-- Modelled from the spec: count of visited operations having a summary
or description. -/
def describedOps (d : Document) : Nat :=
  match d.paths with
  | none => 0
  | some p => (recognizedOps p).countP (fun op => isDescribed op)

/-- Modelled from the spec: count of visited operations having at least
one response whose content includes an example. -/
def exampledOps (d : Document) : Nat :=
  match d.paths with
  | none => 0
  | some p => (recognizedOps p).countP (fun op => isExampled op)

/-- Modelled from the spec: a coverage percentage `n/t*100` as a rational
number, defined to be `0` when the denominator `t` is `0`. -/
def covPct (n t : Nat) : ℚ :=
  if t = 0 then 0 else (n : ℚ) / t * 100

/-- Executable version of the strict threshold test `covPct n t < thr`,
kept in `Nat` arithmetic so that concrete reports evaluate by `decide`. -/
def covLt (n t thr : Nat) : Bool :=
  if t = 0 then decide (0 < thr) else decide (n * 100 < thr * t)

/-- The executable threshold test agrees with the rational comparison of
the spec formula. -/
theorem covLt_eq_decide_covPct (n t thr : Nat) :
    covLt n t thr = decide (covPct n t < thr) := by
  unfold covLt covPct
  rcases Nat.eq_zero_or_pos t with h | h
  · simp [h]
  · have h0 : t ≠ 0 := Nat.pos_iff_ne_zero.mp h
    have ht : (0:ℚ) < t := by exact_mod_cast h
    simp only [if_neg h0]
    have hiff : (n * 100 < thr * t) ↔ ((n:ℚ)/t*100 < thr) := by
      rw [div_mul_eq_mul_div, div_lt_iff₀ ht]
      exact_mod_cast Iff.rfl
    exact decide_eq_decide.mpr hiff

/-- Modelled from the spec: `descriptionCoverage = describedOps/totalOps*100`
(0 if `totalOps` is 0). -/
def descriptionCoverage (d : Document) : ℚ :=
  covPct (describedOps d) (totalOps d)

/-- Modelled from the spec: `exampleCoverage = exampledOps/totalOps*100`
(0 if `totalOps` is 0). -/
def exampleCoverage (d : Document) : ℚ :=
  covPct (exampledOps d) (totalOps d)

/-- `Math.round (n / t * 100)` in integer arithmetic, `0` when `t = 0`. -/
def roundedPct (n t : Nat) : Nat :=
  if t = 0 then 0 else (200 * n + t) / (2 * t)

/-- Modelled from the spec, step 1 (info check): absent `info` is an Issue;
otherwise missing `title` and missing `version` are Issues. -/
def infoIssues : Option Info → List String
  | none => ["missing info object"]
  | some i =>
      (if i.title.isNone then ["missing info.title"] else []) ++
      (if i.version.isNone then ["missing info.version"] else [])

/-- Modelled from the spec, step 1 (info check): a present `info` lacking a
`description` yields a Suggestion. -/
def infoSuggestions : Option Info → List String
  | none => []
  | some i => if i.description.isNone then ["add info.description"] else []

/-- Modelled from the spec, step 2: empty or absent `servers` yields a
Suggestion. -/
def serversSuggestions : Option (List String) → List String
  | none => ["add servers"]
  | some l => if l.isEmpty then ["add servers"] else []

/-- Modelled from the spec, step 3 (issues): empty/absent `paths` is the
Issue "no paths defined" (terminal for this branch); otherwise zero visited
operations is the Issue "no HTTP operations defined". -/
def pathsIssues (d : Document) : List String :=
  match d.paths with
  | none => ["no paths defined"]
  | some p =>
      if p.isEmpty then ["no paths defined"]
      else if (recognizedOps p).length = 0 then ["no HTTP operations defined"]
      else []

/-- Modelled from the spec, step 3 (suggestions): with `paths` present and
non-empty, `descriptionCoverage < 80` and `exampleCoverage < 50` each yield
a Suggestion naming the rounded percentage. -/
def coverageSuggestions (d : Document) : List String :=
  match d.paths with
  | none => []
  | some p =>
      if p.isEmpty then []
      else
        (if covLt (describedOps d) (totalOps d) 80 then
          ["description coverage is " ++
            toString (roundedPct (describedOps d) (totalOps d)) ++ "%"]
         else []) ++
        (if covLt (exampledOps d) (totalOps d) 50 then
          ["example coverage is " ++
            toString (roundedPct (exampledOps d) (totalOps d)) ++ "%"]
         else [])

/-- Modelled from the spec, step 4 (schema checks, only if
`components.schemas` present): one Suggestion per non-zero count of schemas
lacking a description resp. lacking any example. -/
def schemaSuggestions (d : Document) : List String :=
  match d.components.bind (fun c => c.schemas) with
  | none => []
  | some schemas =>
      let noDesc := schemas.countP (fun s => s.2.description.isNone)
      let noEx := schemas.countP (fun s =>
        s.2.exampleVal.isNone && s.2.properties.all (fun pr => pr.2.exampleVal.isNone))
      (if noDesc > 0 then
        [toString noDesc ++ " schemas lack descriptions"] else []) ++
      (if noEx > 0 then
        [toString noEx ++ " schemas lack examples"] else [])

/-- Modelled from the spec, step 5 (security scheme checks, only if
`components.securitySchemes` present): one Suggestion naming each scheme
that lacks a description. -/
def securitySuggestions (d : Document) : List String :=
  match d.components.bind (fun c => c.securitySchemes) with
  | none => []
  | some ss =>
      (ss.filter (fun s => s.2.description.isNone)).map
        (fun s => "security scheme " ++ s.1 ++ " lacks description")

/-- Modelled from the spec, step 6: absent/empty `tags` and absent
`externalDocs` each yield a Suggestion. -/
def tagsSuggestions (d : Document) : List String :=
  (match d.tags with
   | none => ["add tags"]
   | some t => if t.isEmpty then ["add tags"] else []) ++
  (if d.externalDocs then [] else ["add externalDocs"])

/-- Modelled from the spec: the visited operations of the whole document. -/
def allOps (d : Document) : List Operation :=
  match d.paths with
  | none => []
  | some p => recognizedOps p

/-- Modelled from the spec, step 7: across all operations, counts of
parameters lacking a description resp. lacking an example
(`example` or `schema.example`); non-zero counts each yield a Suggestion. -/
def paramSuggestions (d : Document) : List String :=
  let ps := (allOps d).flatMap (fun op => op.parameters.getD [])
  let noDesc := ps.countP (fun pa => pa.description.isNone)
  let noEx := ps.countP (fun pa => pa.exampleVal.isNone && pa.schemaExample.isNone)
  (if noDesc > 0 then
    [toString noDesc ++ " parameters lack descriptions"] else []) ++
  (if noEx > 0 then
    [toString noEx ++ " parameters lack examples"] else [])

/-- Modelled from the spec, step 8: across all operations, counts of
responses lacking a description resp. responses other than the literal
status key "default" lacking content; non-zero counts each yield a
Suggestion. -/
def responseSuggestions (d : Document) : List String :=
  let rs := (allOps d).flatMap (fun op => op.responses.getD [])
  let noDesc := rs.countP (fun re => re.2.description.isNone)
  let noContent := rs.countP (fun re => re.1 != "default" && re.2.content.isNone)
  (if noDesc > 0 then
    [toString noDesc ++ " responses lack descriptions"] else []) ++
  (if noContent > 0 then
    [toString noContent ++ " responses lack content"] else [])

/-- Modelled from the spec: the ordered Issue sequence of the Report
(steps 1 and 3 are the only issue-producing steps). -/
def issues (d : Document) : List String :=
  infoIssues d.info ++ pathsIssues d

/-- Modelled from the spec: the ordered Suggestion sequence of the Report
(steps 1-8 in document order). -/
def suggestions (d : Document) : List String :=
  infoSuggestions d.info ++ serversSuggestions d.servers ++
  coverageSuggestions d ++ schemaSuggestions d ++ securitySuggestions d ++
  tagsSuggestions d ++ paramSuggestions d ++ responseSuggestions d

/-- Modelled from the spec: +5 bonus when `info.description` is present
with length > 50. -/
def infoDescBonus (d : Document) : Int :=
  match d.info with
  | none => 0
  | some i =>
      match i.description with
      | none => 0
      | some s => if s.length > 50 then 5 else 0

/-- Modelled from the spec: +3 bonus when `tags` is present and non-empty. -/
def tagsBonus (d : Document) : Int :=
  match d.tags with
  | none => 0
  | some t => if t.isEmpty then 0 else 3

/-- Modelled from the spec: +2 bonus when `externalDocs` is present. -/
def externalDocsBonus (d : Document) : Int :=
  if d.externalDocs then 2 else 0

/-- Modelled from the spec: `score = 100 - 5*issueCount - suggestionCount
+ bonuses`, before clamping. -/
def rawScore (d : Document) : Int :=
  100 - 5 * (issues d).length - (suggestions d).length +
    infoDescBonus d + tagsBonus d + externalDocsBonus d

/-- Modelled from the spec: the final score, clamped to [0, 100] (the
value is already an integer, so rounding is the identity). -/
def score (d : Document) : Int :=
  max 0 (min 100 (rawScore d))

/-- Modelled from the spec: `evaluate(document) -> Report`. -/
def evaluate (d : Document) : Report :=
  { issues := issues d, suggestions := suggestions d, score := score d }

/-- Modelled from the spec (§6): the qualitative banner of the rendered
report — `>=90` excellent, `>=70` good, `>=50` fair, else poor. -/
def banner (s : Int) : String :=
  if s ≥ 90 then "excellent"
  else if s ≥ 70 then "good"
  else if s ≥ 50 then "fair"
  else "poor"

end Scorer

namespace Scorer

/-- The empty document `{}`: every optional field absent. -/
def docEmpty : Document :=
  { info := none, servers := none, tags := none, externalDocs := false,
    paths := none, components := none }

/-- The document `{info: {}}`: an empty info object added to `docEmpty`. -/
def docEmptyInfo : Document :=
  { docEmpty with info := some { title := none, version := none, description := none } }

/-- A fully documented GET operation whose 200 response carries an example. -/
def opFull : Operation :=
  { summary := some "s", description := none, parameters := none,
    responses := some [("200",
      { description := some "ok",
        content := some [("application/json",
          { examplesPresent := true, schemaExample := none })] })] }

/-- A document with `info` absent but non-empty tags, externalDocs and one
fully documented operation: its bonuses offset the missing-info penalty. -/
def docNoInfoMax : Document :=
  { info := none, servers := some ["http://x"], tags := some ["t"],
    externalDocs := true, paths := some [("/a", [("get", opFull)])],
    components := none }

/-- A document whose `info.version` is absent and all else minimal. -/
def docVer : Document :=
  { info := some { title := some "T", version := none, description := none },
    servers := none, tags := none, externalDocs := false,
    paths := none, components := none }

/-- `docVer` with the missing `info.version` supplied. -/
def docVerFilled : Document :=
  { docVer with info := some { title := some "T", version := some "1.0", description := none } }

/-- A document whose `paths` object is present and non-empty but contains
no recognized HTTP operation. -/
def docNoOps : Document :=
  { info := none, servers := none, tags := none, externalDocs := false,
    paths := some [("/x", [])], components := none }

/-- Clamping to [0, 100] is monotone, hence so is the score in the raw
score. -/
theorem score_mono_of_raw {d1 d2 : Document}
    (h : rawScore d1 ≤ rawScore d2) : score d1 ≤ score d2 := by
  unfold score
  omega

/-- The paths check only ever produces the two issue texts of spec step 3. -/
theorem mem_pathsIssues (d : Document) (s : String) (h : s ∈ pathsIssues d) :
    s = "no paths defined" ∨ s = "no HTTP operations defined" := by
  unfold pathsIssues at h
  rcases hp : d.paths with _ | p <;> rw [hp] at h <;> dsimp only at h
  · simp at h
    exact Or.inl h
  · split_ifs at h <;> simp at h
    · exact Or.inl h
    · exact Or.inr h

/-- The tags bonus is 0 or 3, never negative. -/
theorem tagsBonus_nonneg (d : Document) : 0 ≤ tagsBonus d := by
  unfold tagsBonus
  rcases d.tags with _ | t
  · simp
  · dsimp only
    split_ifs <;> norm_num

/-- The externalDocs bonus is 0 or 2, never negative. -/
theorem externalDocsBonus_nonneg (d : Document) : 0 ≤ externalDocsBonus d := by
  unfold externalDocsBonus
  split_ifs <;> norm_num

end Scorer

/-- C1: for every parseable document the Report score is an integer within
[0, 100] — the penalties, bonuses and clamping keep it in range no matter
how many issues and suggestions the document produces. -/
theorem claim_C1_score_within_bounds (d : Scorer.Document) :
    0 ≤ (Scorer.evaluate d).score ∧ (Scorer.evaluate d).score ≤ 100 := by
  show 0 ≤ Scorer.score d ∧ Scorer.score d ≤ 100
  unfold Scorer.score
  omega

/-- C1 witness at the empty document. -/
theorem claim_C1_score_within_bounds_witness :
    0 ≤ (Scorer.evaluate Scorer.docEmpty).score ∧
    (Scorer.evaluate Scorer.docEmpty).score ≤ 100 :=
  claim_C1_score_within_bounds Scorer.docEmpty

/-- C2: evaluate is a pure, deterministic function of its input document —
two evaluations of the same document agree on the issue sequence, the
suggestion sequence and the score. -/
theorem claim_C2_evaluate_deterministic (d : Scorer.Document)
    (r1 r2 : Scorer.Report) (h1 : r1 = Scorer.evaluate d)
    (h2 : r2 = Scorer.evaluate d) :
    r1.issues = r2.issues ∧ r1.suggestions = r2.suggestions ∧
    r1.score = r2.score := by
  subst h1
  subst h2
  exact ⟨rfl, rfl, rfl⟩

/-- C2 witness: two evaluations of the empty document coincide. -/
theorem claim_C2_evaluate_deterministic_witness :
    (Scorer.evaluate Scorer.docEmpty).issues = (Scorer.evaluate Scorer.docEmpty).issues ∧
    (Scorer.evaluate Scorer.docEmpty).suggestions = (Scorer.evaluate Scorer.docEmpty).suggestions ∧
    (Scorer.evaluate Scorer.docEmpty).score = (Scorer.evaluate Scorer.docEmpty).score :=
  claim_C2_evaluate_deterministic Scorer.docEmpty _ _ rfl rfl

/-- C3 counterexample: the claim quantifies over every required field, but
adding the missing required field `info` (as the empty info object) to the
empty document removes the "missing info object" Issue yet strictly
decreases the score (from 87 to 81): the one removed 5-point issue is
outweighed by the two new issues and one new suggestion the added object
introduces. -/
theorem claim_C3_counterexample :
    Scorer.docEmptyInfo =
      { Scorer.docEmpty with
          info := some { title := none, version := none, description := none } } ∧
    "missing info object" ∈ (Scorer.evaluate Scorer.docEmpty).issues ∧
    "missing info object" ∉ (Scorer.evaluate Scorer.docEmptyInfo).issues ∧
    (Scorer.evaluate Scorer.docEmptyInfo).score < (Scorer.evaluate Scorer.docEmpty).score := by
  decide

/-- C3 amended: restricted to the leaf required fields `info.title` and
`info.version` (the spec's own example is `info.version`): for every
document whose `info` object is present but lacks the leaf field,
supplying any value for it never decreases the score and removes the
corresponding Issue.  (For the compound required fields the claim fails:
adding `info` as an empty object can decrease the score, and adding
`paths` as an empty object leaves the "no paths defined" Issue in place.) -/
theorem claim_C3_leaf_field_monotone (d : Scorer.Document) (i : Scorer.Info)
    (v : String) (h : d.info = some i) :
    (i.version = none →
      (Scorer.evaluate d).score ≤
        (Scorer.evaluate { d with info := some { i with version := some v } }).score ∧
      "missing info.version" ∈ (Scorer.evaluate d).issues ∧
      "missing info.version" ∉
        (Scorer.evaluate { d with info := some { i with version := some v } }).issues) ∧
    (i.title = none →
      (Scorer.evaluate d).score ≤
        (Scorer.evaluate { d with info := some { i with title := some v } }).score ∧
      "missing info.title" ∈ (Scorer.evaluate d).issues ∧
      "missing info.title" ∉
        (Scorer.evaluate { d with info := some { i with title := some v } }).issues) := by
  obtain ⟨inf, srv, tg, ext, pth, comp⟩ := d
  simp only [Scorer.Document.info] at h
  subst h
  obtain ⟨it, iv, idesc⟩ := i
  constructor
  · intro hv
    simp only [Scorer.Info.version] at hv
    subst hv
    refine ⟨?_, ?_, ?_⟩
    · apply Scorer.score_mono_of_raw
      show Scorer.rawScore ⟨some ⟨it, none, idesc⟩, srv, tg, ext, pth, comp⟩ ≤
        Scorer.rawScore ⟨some ⟨it, some v, idesc⟩, srv, tg, ext, pth, comp⟩
      unfold Scorer.rawScore
      have hsugg : Scorer.suggestions
          ⟨some ⟨it, some v, idesc⟩, srv, tg, ext, pth, comp⟩ =
          Scorer.suggestions ⟨some ⟨it, none, idesc⟩, srv, tg, ext, pth, comp⟩ := rfl
      have hdb : Scorer.infoDescBonus
          ⟨some ⟨it, some v, idesc⟩, srv, tg, ext, pth, comp⟩ =
          Scorer.infoDescBonus ⟨some ⟨it, none, idesc⟩, srv, tg, ext, pth, comp⟩ := rfl
      have htb : Scorer.tagsBonus
          ⟨some ⟨it, some v, idesc⟩, srv, tg, ext, pth, comp⟩ =
          Scorer.tagsBonus ⟨some ⟨it, none, idesc⟩, srv, tg, ext, pth, comp⟩ := rfl
      have heb : Scorer.externalDocsBonus
          ⟨some ⟨it, some v, idesc⟩, srv, tg, ext, pth, comp⟩ =
          Scorer.externalDocsBonus ⟨some ⟨it, none, idesc⟩, srv, tg, ext, pth, comp⟩ := rfl
      rw [hsugg, hdb, htb, heb]
      have hiss : (Scorer.issues ⟨some ⟨it, none, idesc⟩, srv, tg, ext, pth, comp⟩).length =
          (Scorer.issues ⟨some ⟨it, some v, idesc⟩, srv, tg, ext, pth, comp⟩).length + 1 := by
        have hpi : Scorer.pathsIssues ⟨some ⟨it, none, idesc⟩, srv, tg, ext, pth, comp⟩ =
            Scorer.pathsIssues ⟨some ⟨it, some v, idesc⟩, srv, tg, ext, pth, comp⟩ := rfl
        cases it <;> simp [Scorer.issues, Scorer.infoIssues, hpi]
      omega
    · show "missing info.version" ∈
        Scorer.issues ⟨some ⟨it, none, idesc⟩, srv, tg, ext, pth, comp⟩
      unfold Scorer.issues
      rw [List.mem_append]
      left
      cases it <;> simp [Scorer.infoIssues]
    · show "missing info.version" ∉
        Scorer.issues ⟨some ⟨it, some v, idesc⟩, srv, tg, ext, pth, comp⟩
      intro hmem
      unfold Scorer.issues at hmem
      rw [List.mem_append] at hmem
      rcases hmem with h1 | h2
      · revert h1
        cases it <;> simp [Scorer.infoIssues]
      · rcases Scorer.mem_pathsIssues _ _ h2 with h | h <;> revert h <;> decide
  · intro ht
    simp only [Scorer.Info.title] at ht
    subst ht
    refine ⟨?_, ?_, ?_⟩
    · apply Scorer.score_mono_of_raw
      show Scorer.rawScore ⟨some ⟨none, iv, idesc⟩, srv, tg, ext, pth, comp⟩ ≤
        Scorer.rawScore ⟨some ⟨some v, iv, idesc⟩, srv, tg, ext, pth, comp⟩
      unfold Scorer.rawScore
      have hsugg : Scorer.suggestions
          ⟨some ⟨some v, iv, idesc⟩, srv, tg, ext, pth, comp⟩ =
          Scorer.suggestions ⟨some ⟨none, iv, idesc⟩, srv, tg, ext, pth, comp⟩ := rfl
      have hdb : Scorer.infoDescBonus
          ⟨some ⟨some v, iv, idesc⟩, srv, tg, ext, pth, comp⟩ =
          Scorer.infoDescBonus ⟨some ⟨none, iv, idesc⟩, srv, tg, ext, pth, comp⟩ := rfl
      have htb : Scorer.tagsBonus
          ⟨some ⟨some v, iv, idesc⟩, srv, tg, ext, pth, comp⟩ =
          Scorer.tagsBonus ⟨some ⟨none, iv, idesc⟩, srv, tg, ext, pth, comp⟩ := rfl
      have heb : Scorer.externalDocsBonus
          ⟨some ⟨some v, iv, idesc⟩, srv, tg, ext, pth, comp⟩ =
          Scorer.externalDocsBonus ⟨some ⟨none, iv, idesc⟩, srv, tg, ext, pth, comp⟩ := rfl
      rw [hsugg, hdb, htb, heb]
      have hiss : (Scorer.issues ⟨some ⟨none, iv, idesc⟩, srv, tg, ext, pth, comp⟩).length =
          (Scorer.issues ⟨some ⟨some v, iv, idesc⟩, srv, tg, ext, pth, comp⟩).length + 1 := by
        have hpi : Scorer.pathsIssues ⟨some ⟨none, iv, idesc⟩, srv, tg, ext, pth, comp⟩ =
            Scorer.pathsIssues ⟨some ⟨some v, iv, idesc⟩, srv, tg, ext, pth, comp⟩ := rfl
        cases iv <;> simp [Scorer.issues, Scorer.infoIssues, hpi]
      omega
    · show "missing info.title" ∈
        Scorer.issues ⟨some ⟨none, iv, idesc⟩, srv, tg, ext, pth, comp⟩
      unfold Scorer.issues
      rw [List.mem_append]
      left
      cases iv <;> simp [Scorer.infoIssues]
    · show "missing info.title" ∉
        Scorer.issues ⟨some ⟨some v, iv, idesc⟩, srv, tg, ext, pth, comp⟩
      intro hmem
      unfold Scorer.issues at hmem
      rw [List.mem_append] at hmem
      rcases hmem with h1 | h2
      · revert h1
        cases iv <;> simp [Scorer.infoIssues]
      · rcases Scorer.mem_pathsIssues _ _ h2 with h | h <;> revert h <;> decide

/-- C3 witness: supplying the missing `info.version` on a concrete
document does not decrease the score and removes the version Issue. -/
theorem claim_C3_leaf_field_monotone_witness :
    (Scorer.evaluate Scorer.docVer).score ≤ (Scorer.evaluate Scorer.docVerFilled).score ∧
    "missing info.version" ∈ (Scorer.evaluate Scorer.docVer).issues ∧
    "missing info.version" ∉ (Scorer.evaluate Scorer.docVerFilled).issues :=
  (claim_C3_leaf_field_monotone Scorer.docVer
    { title := some "T", version := none, description := none } "1.0" rfl).1 rfl

/-- C5 counterexample: no nine-element set of method strings characterizes
the methods visited by the paths check — the recognized set has exactly
eight elements (get, put, post, delete, options, head, patch, trace), so
the claim's "set of nine recognized HTTP verbs" does not exist. -/
theorem claim_C5_counterexample :
    ¬ ∃ S : Finset String, S.card = 9 ∧
        ∀ m : String, m ∈ Scorer.validMethods ↔ m ∈ S := by
  rintro ⟨S, h9, hiff⟩
  have hS : S = Scorer.validMethods.toFinset := by
    ext m
    rw [List.mem_toFinset]
    exact (hiff m).symm
  have h8 : Scorer.validMethods.toFinset.card = 8 := by decide
  rw [hS, h8] at h9
  exact absurd h9 (by norm_num)

/-- C5 amended: a (path, method, operation) triple is visited exactly when
the method key belongs to the set of EIGHT recognized HTTP verbs (get,
put, post, delete, options, head, patch, trace); a method key outside that
set contributes nothing to totalOps, describedOps or exampledOps. -/
theorem claim_C5_eight_recognized_verbs :
    Scorer.validMethods.length = 8 ∧
    (∀ m : String, m ∈ Scorer.validMethods ↔
      (m = "get" ∨ m = "put" ∨ m = "post" ∨ m = "delete" ∨
       m = "options" ∨ m = "head" ∨ m = "patch" ∨ m = "trace")) ∧
    (∀ (pathName m : String) (op : Scorer.Operation)
       (rest : List (String × Scorer.Operation))
       (more : List (String × List (String × Scorer.Operation))),
      (m ∈ Scorer.validMethods →
        Scorer.recognizedOps ((pathName, (m, op) :: rest) :: more) =
          op :: Scorer.recognizedOps ((pathName, rest) :: more)) ∧
      (m ∉ Scorer.validMethods →
        Scorer.recognizedOps ((pathName, (m, op) :: rest) :: more) =
          Scorer.recognizedOps ((pathName, rest) :: more))) ∧
    (∀ (inf : Option Scorer.Info) (srv tg : Option (List String)) (ext : Bool)
       (comp : Option Scorer.Components) (pathName m : String)
       (op : Scorer.Operation) (rest : List (String × Scorer.Operation))
       (more : List (String × List (String × Scorer.Operation))),
      m ∉ Scorer.validMethods →
        (Scorer.totalOps
            ⟨inf, srv, tg, ext, some ((pathName, (m, op) :: rest) :: more), comp⟩ =
         Scorer.totalOps ⟨inf, srv, tg, ext, some ((pathName, rest) :: more), comp⟩ ∧
         Scorer.describedOps
            ⟨inf, srv, tg, ext, some ((pathName, (m, op) :: rest) :: more), comp⟩ =
         Scorer.describedOps ⟨inf, srv, tg, ext, some ((pathName, rest) :: more), comp⟩ ∧
         Scorer.exampledOps
            ⟨inf, srv, tg, ext, some ((pathName, (m, op) :: rest) :: more), comp⟩ =
         Scorer.exampledOps ⟨inf, srv, tg, ext, some ((pathName, rest) :: more), comp⟩)) := by
  refine ⟨rfl, ?_, ?_, ?_⟩
  · intro m
    simp [Scorer.validMethods]
  · intro pathName m op rest more
    constructor <;> intro hm <;>
      simp [Scorer.recognizedOps, List.filter_cons, hm]
  · intro inf srv tg ext comp pathName m op rest more hm
    refine ⟨?_, ?_, ?_⟩ <;>
      simp [Scorer.totalOps, Scorer.describedOps, Scorer.exampledOps,
        Scorer.recognizedOps, List.filter_cons, hm]

/-- C5 amended witness: the unrecognized method key "query" is not visited
and contributes nothing to the three counters on a concrete document. -/
theorem claim_C5_eight_recognized_verbs_witness :
    Scorer.recognizedOps [("/a", [("query", Scorer.opFull)])] =
      Scorer.recognizedOps [("/a", [])] ∧
    Scorer.totalOps
        ⟨none, none, none, false, some [("/a", [("query", Scorer.opFull)])], none⟩ =
      Scorer.totalOps ⟨none, none, none, false, some [("/a", [])], none⟩ :=
  ⟨(claim_C5_eight_recognized_verbs.2.2.1 "/a" "query" Scorer.opFull [] []).2
      (by decide),
   (claim_C5_eight_recognized_verbs.2.2.2 none none none false none "/a" "query"
      Scorer.opFull [] [] (by decide)).1⟩

/-- C6: the qualitative banner of the rendered report is a function of
the score alone with cutoffs 90, 70 and 50: "excellent" iff score ≥ 90,
"good" iff 70 ≤ score < 90, "fair" iff 50 ≤ score < 70, "poor" otherwise. -/
theorem claim_C6_banner_cutoffs (s : Int) :
    (Scorer.banner s = "excellent" ↔ 90 ≤ s) ∧
    (Scorer.banner s = "good" ↔ 70 ≤ s ∧ s < 90) ∧
    (Scorer.banner s = "fair" ↔ 50 ≤ s ∧ s < 70) ∧
    (Scorer.banner s = "poor" ↔ s < 50) := by
  unfold Scorer.banner
  split_ifs with h1 h2 h3 <;> refine ⟨?_, ?_, ?_, ?_⟩ <;> simp_all <;> omega

/-- C7 counterexample: a document with `info` absent whose tags and
externalDocs bonuses offset the missing-info penalty scores 100, refuting
`score <= 95`. -/
theorem claim_C7_counterexample :
    Scorer.docNoInfoMax.info = none ∧
    (Scorer.evaluate Scorer.docNoInfoMax).score = 100 ∧
    ¬ ((Scorer.evaluate Scorer.docNoInfoMax).score ≤ 95) := by
  decide

/-- C7 amended: for every document with `info` absent the Report contains
an Issue mentioning "info", and the score is at most 95 plus the tags
bonus (3) and externalDocs bonus (2) actually awarded — in particular at
most 95 whenever tags and externalDocs are also absent. -/
theorem claim_C7_missing_info (d : Scorer.Document) (h : d.info = none) :
    (∃ msg, msg ∈ (Scorer.evaluate d).issues ∧
      "info".toList <:+: msg.toList) ∧
    (Scorer.evaluate d).score ≤
      95 + Scorer.tagsBonus d + Scorer.externalDocsBonus d := by
  constructor
  · refine ⟨"missing info object", ?_, by decide⟩
    show "missing info object" ∈ Scorer.issues d
    unfold Scorer.issues
    rw [h, List.mem_append]
    left
    simp [Scorer.infoIssues]
  · have h1 : 1 ≤ (Scorer.issues d).length := by
      unfold Scorer.issues
      rw [h]
      simp [Scorer.infoIssues]
    have h2 : Scorer.infoDescBonus d = 0 := by
      unfold Scorer.infoDescBonus
      rw [h]
    have h3 := Scorer.tagsBonus_nonneg d
    have h4 := Scorer.externalDocsBonus_nonneg d
    show Scorer.score d ≤ 95 + Scorer.tagsBonus d + Scorer.externalDocsBonus d
    unfold Scorer.score Scorer.rawScore
    rw [h2]
    omega

/-- C7 amended witness at the empty document: its score 87 is within the
bound and the "missing info object" Issue is present. -/
theorem claim_C7_missing_info_witness :
    (∃ msg, msg ∈ (Scorer.evaluate Scorer.docEmpty).issues ∧
      "info".toList <:+: msg.toList) ∧
    (Scorer.evaluate Scorer.docEmpty).score ≤
      95 + Scorer.tagsBonus Scorer.docEmpty +
        Scorer.externalDocsBonus Scorer.docEmpty :=
  claim_C7_missing_info Scorer.docEmpty rfl

namespace Coverage

/-- The running summary accumulated by `analyzeCoverageReport`
(run-coverage-analysis script in README.md): file, statement, branch and
function counters plus the flagged low-coverage files. -/
structure Summary where
  totalFiles : Nat
  coveredFiles : Nat
  totalStatements : Nat
  coveredStatements : Nat
  totalBranches : Nat
  coveredBranches : Nat
  totalFunctions : Nat
  coveredFunctions : Nat
  lowCoverageFiles : List (String × ℚ)
deriving DecidableEq

/-- `statementPct` of `analyzeCoverageReport` (README.md lines 281-283):
`(coveredStatements / totalStatements) * 100` guarded to `0` when
`totalStatements` is `0`. -/
def statementPct (covered total : Nat) : ℚ :=
  if total > 0 then (covered : ℚ) / total * 100 else 0

/-- `pctStmt` of `generateCoverageReport` (README.md lines 299-300):
rounded statement percentage, `0` when the denominator is `0`. -/
def pctStmt (s : Summary) : Int :=
  if s.totalStatements > 0 then
    round ((s.coveredStatements : ℚ) / s.totalStatements * 100)
  else 0

/-- `pctBranch` of `generateCoverageReport` (README.md lines 301-302). -/
def pctBranch (s : Summary) : Int :=
  if s.totalBranches > 0 then
    round ((s.coveredBranches : ℚ) / s.totalBranches * 100)
  else 0

/-- `pctFunc` of `generateCoverageReport` (README.md lines 303-304). -/
def pctFunc (s : Summary) : Int :=
  if s.totalFunctions > 0 then
    round ((s.coveredFunctions : ℚ) / s.totalFunctions * 100)
  else 0

end Coverage

/-- C8: every coverage percentage is computed with a guarded division —
whenever the denominator is zero (totalOps in the scorer; total
statements, branches or functions in the coverage analyzer) the
percentage is defined to be 0, and a document with paths but zero
operations additionally receives the "no HTTP operations defined" Issue. -/
theorem claim_C8_guarded_percentages :
    (∀ d : Scorer.Document, Scorer.totalOps d = 0 →
      Scorer.descriptionCoverage d = 0 ∧ Scorer.exampleCoverage d = 0) ∧
    (∀ (d : Scorer.Document) (p : List (String × List (String × Scorer.Operation))),
      d.paths = some p → p ≠ [] → Scorer.totalOps d = 0 →
        "no HTTP operations defined" ∈ (Scorer.evaluate d).issues) ∧
    (∀ s : Coverage.Summary,
      (s.totalStatements = 0 → Coverage.pctStmt s = 0) ∧
      (s.totalBranches = 0 → Coverage.pctBranch s = 0) ∧
      (s.totalFunctions = 0 → Coverage.pctFunc s = 0)) ∧
    (∀ covered : Nat, Coverage.statementPct covered 0 = 0) := by
  refine ⟨?_, ?_, ?_, ?_⟩
  · intro d h
    constructor <;>
      simp [Scorer.descriptionCoverage, Scorer.exampleCoverage, Scorer.covPct, h]
  · intro d p hp hne h0
    show "no HTTP operations defined" ∈ Scorer.issues d
    unfold Scorer.issues
    rw [List.mem_append]
    right
    unfold Scorer.pathsIssues
    rw [hp]
    unfold Scorer.totalOps at h0
    rw [hp] at h0
    dsimp only at h0 ⊢
    rw [if_neg (by simpa [List.isEmpty_iff] using hne), if_pos h0]
    simp
  · intro s
    refine ⟨?_, ?_, ?_⟩ <;> intro h <;>
      simp [Coverage.pctStmt, Coverage.pctBranch, Coverage.pctFunc, h]
  · intro covered
    simp [Coverage.statementPct]

/-- C8 witness: the guarded percentages at concrete zero denominators,
and the Issue on a document whose only path item has no recognized
operation. -/
theorem claim_C8_guarded_percentages_witness :
    Scorer.descriptionCoverage Scorer.docNoOps = 0 ∧
    "no HTTP operations defined" ∈ (Scorer.evaluate Scorer.docNoOps).issues ∧
    Coverage.pctStmt ⟨0, 0, 0, 0, 0, 0, 0, 0, []⟩ = 0 ∧
    Coverage.statementPct 7 0 = 0 :=
  ⟨(claim_C8_guarded_percentages.1 Scorer.docNoOps (by decide)).1,
   claim_C8_guarded_percentages.2.1 Scorer.docNoOps [("/x", [])] rfl
     (by decide) (by decide),
   (claim_C8_guarded_percentages.2.2.1 ⟨0, 0, 0, 0, 0, 0, 0, 0, []⟩).1 rfl,
   claim_C8_guarded_percentages.2.2.2 7⟩

/-- JavaScript `String.prototype.toLowerCase` for the ASCII strings the
scripts compare. -/
def jsToLower (s : String) : String :=
  ⟨s.data.map Char.toLower⟩

/-- JavaScript `String.prototype.toUpperCase` (used only inside warning
texts). -/
def jsToUpper (s : String) : String :=
  ⟨s.data.map Char.toUpper⟩

/-- The input of a script's main execution: the required path argument may
be missing, the file may fail to parse, or it parses to a value. -/
inductive CliInput (α : Type) where
  | noArg
  | parseFail
  | parsed (value : α)
deriving DecidableEq

namespace Validate

/-- JavaScript truthiness of an optional string field: absent and the
empty string are falsy. -/
def truthyS : Option String → Bool
  | none => false
  | some s => !s.isEmpty

/-- The `info` object as read by `validateSpec`: only `title` and
`version` are consulted. -/
structure VInfo where
  title : Option String
  version : Option String
deriving DecidableEq

/-- An operation value as read by `validateSpec`: either not an object
(skipped) or an object whose `responses` keys are the status codes. -/
inductive VOperation where
  | nonObject
  | obj (responses : Option (List String))
deriving DecidableEq

/-- A path item: either not an object (an error) or a map from method
keys to operations. -/
inductive VPathItem where
  | nonObject
  | obj (entries : List (String × VOperation))
deriving DecidableEq

/-- A security scheme as read by `validateSpec` (`in` is called `loc`). -/
structure VSecurityScheme where
  type : Option String
  name : Option String
  loc : Option String
  scheme : Option String
  flows : Bool
  openIdConnectUrl : Option String
deriving DecidableEq

/-- A component schema as read by `validateSpec`: either not an object
(an error) or an object whose properties each carry an is-object flag. -/
inductive VSchema where
  | nonObject
  | obj (properties : Option (List (String × Bool)))
deriving DecidableEq

/-- The `components` object as read by `validateSpec`. -/
structure VComponents where
  schemas : Option (List (String × VSchema))
  securitySchemes : Option (List (String × VSecurityScheme))
deriving DecidableEq

/-- The parsed specification document as read by `validateSpec`. -/
structure VSpecDoc where
  openapi : Option String
  swagger : Option String
  info : Option VInfo
  paths : Option (List (String × VPathItem))
  components : Option VComponents
deriving DecidableEq

/-- `isValidOpenApiVersion`: the regex `^3\.\d+\.\d+$`. -/
def isValidOpenApiVersion (s : String) : Bool :=
  match s.toList with
  | '3' :: '.' :: rest =>
      let d1 := rest.takeWhile Char.isDigit
      let r2 := rest.dropWhile Char.isDigit
      !d1.isEmpty &&
        (match r2 with
         | '.' :: ds => !ds.isEmpty && ds.all Char.isDigit
         | _ => false)
  | _ => false

/-- `isValidSwaggerVersion`: exactly "2.0". -/
def isValidSwaggerVersion (s : String) : Bool :=
  s == "2.0"

/-- Whether JavaScript `isNaN(parseInt(s))` holds: after leading
whitespace and an optional sign, the first character is not a digit. -/
def jsParseIntIsNaN (s : String) : Bool :=
  match s.toList.dropWhile Char.isWhitespace with
  | [] => true
  | c :: rest =>
      if c = '-' || c = '+' then
        match rest with
        | [] => true
        | c2 :: _ => !c2.isDigit
      else !c.isDigit

/-- The method keys `validateSpec` accepts without a warning
(generate-openapi.js validate-spec section line 630). -/
def validMethods : List String :=
  ["get", "put", "post", "delete", "options", "head", "patch", "trace"]

/-- The version-field errors: missing openapi/swagger, or a present one
with an invalid format. -/
def versionErrors (d : VSpecDoc) : List String :=
  if !truthyS d.openapi && !truthyS d.swagger then
    ["Missing openapi (3.x) or swagger (2.0) version field"]
  else if truthyS d.openapi then
    match d.openapi with
    | some v =>
        if isValidOpenApiVersion v then []
        else ["Invalid OpenAPI version: " ++ v ++ ". Expected format like \"3.0.0\""]
    | none => []
  else
    match d.swagger with
    | some v =>
        if isValidSwaggerVersion v then []
        else ["Invalid Swagger version: " ++ v ++ ". Expected \"2.0\""]
    | none => []

/-- The required-info errors: missing object, or falsy title/version. -/
def infoErrors : Option VInfo → List String
  | none => ["Missing required info object"]
  | some i =>
      (if !truthyS i.title then ["Missing required info.title"] else []) ++
      (if !truthyS i.version then ["Missing required info.version"] else [])

/-- The paths errors: missing `paths`, or a non-object path item. -/
def pathsErrors (d : VSpecDoc) : List String :=
  match d.paths with
  | none => ["Missing required paths object"]
  | some entries =>
      entries.flatMap (fun pe =>
        match pe.2 with
        | .nonObject => ["Invalid path item for \"" ++ pe.1 ++ "\", expected object"]
        | .obj _ => [])

/-- The warnings emitted for one (method, operation) entry: unknown HTTP
method, and invalid response status codes. -/
def methodWarnings (pathName : String) (me : String × VOperation) : List String :=
  (if jsToLower me.1 ∈ validMethods then []
   else ["Unknown HTTP method \"" ++ me.1 ++ "\" in path \"" ++ pathName ++ "\""]) ++
  (match me.2 with
   | .nonObject => []
   | .obj none => []
   | .obj (some codes) =>
       (codes.filter (fun c => jsParseIntIsNaN c && c != "default")).map
         (fun c => "Invalid status code \"" ++ c ++ "\" in " ++
            jsToUpper me.1 ++ " " ++ pathName))

/-- The warnings of the paths loop. -/
def pathsWarnings (d : VSpecDoc) : List String :=
  match d.paths with
  | none => []
  | some entries =>
      entries.flatMap (fun pe =>
        match pe.2 with
        | .nonObject => []
        | .obj ms => ms.flatMap (methodWarnings pe.1))

/-- The errors of one security scheme (`validateComponents`): missing
type short-circuits; otherwise an invalid type and the type-specific
required fields each produce an error. -/
def schemeErrors (name : String) (s : VSecurityScheme) : List String :=
  if !truthyS s.type then
    ["Security scheme \"" ++ name ++ "\" missing required type field"]
  else
    let t := s.type.getD ""
    (if t ∈ ["apiKey", "http", "oauth2", "openIdConnect"] then []
     else ["Invalid security scheme type \"" ++ t ++ "\" in scheme \"" ++ name ++ "\""]) ++
    (if t = "apiKey" then
      (if !truthyS s.name then
        ["apiKey security scheme \"" ++ name ++ "\" missing required name field"]
       else []) ++
      (if !truthyS s.loc || !((s.loc.getD "") ∈ ["query", "header", "cookie"]) then
        ["apiKey security scheme \"" ++ name ++
          "\" missing or invalid \"in\" field (expected query, header, or cookie)"]
       else [])
     else if t = "http" then
      if !truthyS s.scheme then
        ["http security scheme \"" ++ name ++ "\" missing required scheme field"]
      else []
     else if t = "oauth2" then
      if !s.flows then
        ["oauth2 security scheme \"" ++ name ++ "\" missing required flows object"]
      else []
     else if t = "openIdConnect" then
      if !truthyS s.openIdConnectUrl then
        ["openIdConnect security scheme \"" ++ name ++
          "\" missing required openIdConnectUrl field"]
      else []
     else [])

/-- The errors of `validateComponents`, run only for OpenAPI 3.x specs
that carry a `components` object. -/
def componentsErrors (d : VSpecDoc) : List String :=
  if truthyS d.openapi then
    match d.components with
    | none => []
    | some c =>
        (match c.schemas with
         | none => []
         | some sch =>
             sch.flatMap (fun se =>
               match se.2 with
               | .nonObject => ["Invalid schema \"" ++ se.1 ++ "\", expected object"]
               | .obj _ => [])) ++
        (match c.securitySchemes with
         | none => []
         | some ss => ss.flatMap (fun se => schemeErrors se.1 se.2))
  else []

/-- The warnings of `validateComponents`: non-object schema properties. -/
def componentsWarnings (d : VSpecDoc) : List String :=
  if truthyS d.openapi then
    match d.components with
    | none => []
    | some c =>
        match c.schemas with
        | none => []
        | some sch =>
            sch.flatMap (fun se =>
              match se.2 with
              | .nonObject => []
              | .obj none => []
              | .obj (some props) =>
                  (props.filter (fun pr => !pr.2)).map (fun pr =>
                    "Property \"" ++ pr.1 ++ "\" in schema \"" ++ se.1 ++
                      "\" should be an object"))
  else []

/-- The result of `validateSpec`. -/
structure VResult where
  isValid : Bool
  errors : List String
  warnings : List String
  specType : String
deriving DecidableEq

/-- `validateSpec` (generate-openapi.js validate-spec section): collects
errors and warnings in source order; the spec is valid iff there are no
errors. -/
def validateSpec (d : VSpecDoc) : VResult :=
  let errors := versionErrors d ++ infoErrors d.info ++ pathsErrors d ++
    componentsErrors d
  let warnings := pathsWarnings d ++ componentsWarnings d
  { isValid := errors.isEmpty
    errors := errors
    warnings := warnings
    specType :=
      if truthyS d.openapi then "OpenAPI 3.x"
      else if truthyS d.swagger then "Swagger 2.0"
      else "Unknown" }

/-- The exit status of the validate-spec main execution: 1 on a missing
argument or parse failure, and 1 for a parsed spec exactly when
validation found errors. -/
def validateSpecMainExit : CliInput VSpecDoc → Nat
  | .noArg => 1
  | .parseFail => 1
  | .parsed d => if (validateSpec d).isValid then 0 else 1

/-- The spec `{}`: every field absent.  It parses, yet validates with
errors. -/
def emptyVSpec : VSpecDoc :=
  { openapi := none, swagger := none, info := none, paths := none,
    components := none }

/-- A minimal spec that validates without errors. -/
def goodVSpec : VSpecDoc :=
  { openapi := some "3.0.0", swagger := none,
    info := some { title := some "t", version := some "1" },
    paths := some [], components := none }

end Validate

namespace ExportDocs

/-- The result record of `exportDocs` (unnamed/part_004 lines 39-43). -/
structure ExportResult where
  content : String
  extension : String
  format : String
deriving DecidableEq

/-- The six format strings (after lowercasing) accepted by the
`exportDocs` switch. -/
def supportedFormats : List String :=
  ["html", "markdown", "md", "postman", "raml", "asciidoc"]

/-- `exportDocs` (unnamed/part_004 lines 7-44): dispatch on the lowercased
format string.  The content generators are parameters of the embedding —
the dispatch never inspects their output — and the parsed spec is the
type parameter `δ`.  An unsupported format throws. -/
def exportDocs {δ : Type}
    (htmlGen markdownGen postmanGen ramlGen asciidocGen : δ → String)
    (spec : δ) (format : String) : Except String ExportResult :=
  let f := jsToLower format
  if f = "html" then
    .ok { content := htmlGen spec, extension := ".html", format := format }
  else if f = "markdown" ∨ f = "md" then
    .ok { content := markdownGen spec, extension := ".md", format := format }
  else if f = "postman" then
    .ok { content := postmanGen spec, extension := ".json", format := format }
  else if f = "raml" then
    .ok { content := ramlGen spec, extension := ".raml", format := format }
  else if f = "asciidoc" then
    .ok { content := asciidocGen spec, extension := ".adoc", format := format }
  else
    .error ("Unsupported format: " ++ format ++
      ". Supported formats: html, markdown, postman, raml, asciidoc")

/-- JavaScript `argv[3] || 'html'`: a missing or empty format argument
defaults to "html". -/
def argOr (o : Option String) (dflt : String) : String :=
  match o with
  | none => dflt
  | some s => if s.isEmpty then dflt else s

/-- The exit status of the export-docs main execution: 1 on a missing
path argument, a parse failure or an `exportDocs` throw; 0 otherwise. -/
def exportDocsMainExit {δ : Type}
    (g1 g2 g3 g4 g5 : δ → String) : CliInput (δ × Option String) → Nat
  | .noArg => 1
  | .parseFail => 1
  | .parsed (d, fmt) =>
      match exportDocs g1 g2 g3 g4 g5 d (argOr fmt "html") with
      | .ok _ => 0
      | .error _ => 1

/-- `exportDocs` succeeds exactly when the lowercased format is one of the
six supported strings. -/
theorem exportDocs_ok_iff {δ : Type}
    (g1 g2 g3 g4 g5 : δ → String) (d : δ) (format : String) :
    (∃ r, exportDocs g1 g2 g3 g4 g5 d format = .ok r) ↔
      jsToLower format ∈ supportedFormats := by
  unfold exportDocs supportedFormats
  dsimp only
  split_ifs with h1 h2 h3 h4 h5 <;> simp_all <;> tauto

end ExportDocs

/-- A parsed spec is valid exactly when its error list is empty. -/
theorem Validate.validateSpec_isValid_iff (d : Validate.VSpecDoc) :
    (Validate.validateSpec d).isValid = true ↔
      (Validate.validateSpec d).errors = [] := by
  unfold Validate.validateSpec
  dsimp only
  simp [List.isEmpty_iff]

/-- C4 counterexample: the empty document `{}` parses, yet the
validate-spec main execution exits non-zero because validation reports
errors — exit status is not determined by "argument present and parse
succeeded" alone. -/
theorem claim_C4_counterexample :
    Validate.validateSpecMainExit (CliInput.parsed Validate.emptyVSpec) = 1 ∧
    (Validate.validateSpec Validate.emptyVSpec).errors ≠ [] := by
  decide

/-- C4 amended: the validate-spec tool exits zero exactly on a parsed
document whose validation produced no errors (so parsed-but-invalid
documents exit non-zero), while the export-docs tool exits zero exactly
on a parsed document whose (defaulted, lowercased) format argument is
supported; both exit non-zero on a missing argument or a parse failure. -/
theorem claim_C4_exit_status :
    (∀ inp : CliInput Validate.VSpecDoc,
      Validate.validateSpecMainExit inp = 0 ↔
        ∃ d, inp = CliInput.parsed d ∧ (Validate.validateSpec d).errors = []) ∧
    (∀ (δ : Type) (g1 g2 g3 g4 g5 : δ → String)
       (inp : CliInput (δ × Option String)),
      ExportDocs.exportDocsMainExit g1 g2 g3 g4 g5 inp = 0 ↔
        ∃ d fmt, inp = CliInput.parsed (d, fmt) ∧
          jsToLower (ExportDocs.argOr fmt "html") ∈ ExportDocs.supportedFormats) := by
  constructor
  · intro inp
    cases inp with
    | noArg => simp [Validate.validateSpecMainExit]
    | parseFail => simp [Validate.validateSpecMainExit]
    | parsed d =>
        unfold Validate.validateSpecMainExit
        dsimp only
        split_ifs with hv
        · constructor
          · intro _
            exact ⟨d, rfl, (Validate.validateSpec_isValid_iff d).mp hv⟩
          · intro _
            rfl
        · constructor
          · intro h
            exact absurd h (by norm_num)
          · rintro ⟨d2, hd, he⟩
            cases hd
            exact absurd ((Validate.validateSpec_isValid_iff d).mpr he) hv
  · intro δ g1 g2 g3 g4 g5 inp
    cases inp with
    | noArg => simp [ExportDocs.exportDocsMainExit]
    | parseFail => simp [ExportDocs.exportDocsMainExit]
    | parsed df =>
        obtain ⟨d, fmt⟩ := df
        unfold ExportDocs.exportDocsMainExit
        dsimp only
        rcases he : ExportDocs.exportDocs g1 g2 g3 g4 g5 d
            (ExportDocs.argOr fmt "html") with e | r
        · constructor
          · intro h
            exact absurd h (by norm_num)
          · rintro ⟨d2, fmt2, hd, hs⟩
            cases hd
            have hok := (ExportDocs.exportDocs_ok_iff g1 g2 g3 g4 g5 d
              (ExportDocs.argOr fmt "html")).mpr hs
            rw [he] at hok
            obtain ⟨r, hr⟩ := hok
            exact absurd hr (by simp)
        · constructor
          · intro _
            exact ⟨d, fmt, rfl, (ExportDocs.exportDocs_ok_iff g1 g2 g3 g4 g5 d
              (ExportDocs.argOr fmt "html")).mp ⟨r, he⟩⟩
          · intro _
            rfl

/-- C4 amended witness: a well-formed spec exits zero from validate-spec,
and the empty document with the default format exits zero from
export-docs. -/
theorem claim_C4_exit_status_witness :
    Validate.validateSpecMainExit (CliInput.parsed Validate.goodVSpec) = 0 ∧
    ExportDocs.exportDocsMainExit (fun _ : Unit => "") (fun _ => "")
      (fun _ => "") (fun _ => "") (fun _ => "")
      (CliInput.parsed ((), none)) = 0 :=
  ⟨(claim_C4_exit_status.1 (CliInput.parsed Validate.goodVSpec)).mpr
      ⟨Validate.goodVSpec, rfl, by decide⟩,
   (claim_C4_exit_status.2 Unit (fun _ => "") (fun _ => "") (fun _ => "")
      (fun _ => "") (fun _ => "") (CliInput.parsed ((), none))).mpr
      ⟨(), none, rfl, by decide⟩⟩

/-- C9: exportDocs returns a result exactly for the six case-insensitive
format strings html, markdown, md, postman, raml and asciidoc, with
extensions .html, .md, .md, .json, .raml and .adoc respectively and the
result's format field equal to the argument; any other format string
throws an "Unsupported format" error. -/
theorem claim_C9_export_format_dispatch (δ : Type)
    (g1 g2 g3 g4 g5 : δ → String) (d : δ) (format : String) :
    ((∃ r, ExportDocs.exportDocs g1 g2 g3 g4 g5 d format = .ok r) ↔
      jsToLower format ∈ ExportDocs.supportedFormats) ∧
    (∀ r, ExportDocs.exportDocs g1 g2 g3 g4 g5 d format = .ok r →
      r.format = format ∧
      (jsToLower format = "html" → r.extension = ".html") ∧
      (jsToLower format = "markdown" ∨ jsToLower format = "md" →
        r.extension = ".md") ∧
      (jsToLower format = "postman" → r.extension = ".json") ∧
      (jsToLower format = "raml" → r.extension = ".raml") ∧
      (jsToLower format = "asciidoc" → r.extension = ".adoc")) ∧
    (jsToLower format ∉ ExportDocs.supportedFormats →
      ExportDocs.exportDocs g1 g2 g3 g4 g5 d format =
        .error ("Unsupported format: " ++ format ++
          ". Supported formats: html, markdown, postman, raml, asciidoc")) := by
  refine ⟨ExportDocs.exportDocs_ok_iff g1 g2 g3 g4 g5 d format, ?_, ?_⟩
  · intro r hr
    unfold ExportDocs.exportDocs at hr
    dsimp only at hr
    split_ifs at hr with h1 h2 h3 h4 h5 <;>
      first
        | (injection hr with h
           subst h
           refine ⟨rfl, ?_, ?_, ?_, ?_, ?_⟩ <;> intro ha <;> simp_all)
        | simp at hr
  · intro hns
    unfold ExportDocs.exportDocs
    dsimp only
    split_ifs with h1 h2 h3 h4 h5 <;>
      first
        | rfl
        | (exact absurd
            (show jsToLower format ∈ ExportDocs.supportedFormats by
              simp only [ExportDocs.supportedFormats, List.mem_cons]
              tauto)
            hns)

/-- C9 witness: exporting with format "HTML" (uppercase) succeeds, keeps
the argument in the format field and uses extension ".html". -/
theorem claim_C9_export_format_dispatch_witness :
    ({ content := "", extension := ".html", format := "HTML" } :
        ExportDocs.ExportResult).format = "HTML" ∧
    (jsToLower "HTML" = "html" →
      ({ content := "", extension := ".html", format := "HTML" } :
        ExportDocs.ExportResult).extension = ".html") ∧
    (jsToLower "HTML" = "markdown" ∨ jsToLower "HTML" = "md" →
      ({ content := "", extension := ".html", format := "HTML" } :
        ExportDocs.ExportResult).extension = ".md") ∧
    (jsToLower "HTML" = "postman" →
      ({ content := "", extension := ".html", format := "HTML" } :
        ExportDocs.ExportResult).extension = ".json") ∧
    (jsToLower "HTML" = "raml" →
      ({ content := "", extension := ".html", format := "HTML" } :
        ExportDocs.ExportResult).extension = ".raml") ∧
    (jsToLower "HTML" = "asciidoc" →
      ({ content := "", extension := ".html", format := "HTML" } :
        ExportDocs.ExportResult).extension = ".adoc") :=
  (claim_C9_export_format_dispatch Unit (fun _ => "") (fun _ => "")
    (fun _ => "") (fun _ => "") (fun _ => "") () "HTML").2.1
    { content := "", extension := ".html", format := "HTML" } rfl

namespace SchemaGen

/-- A JSON value, covering the shapes `getTypeDefinition` constructs. -/
inductive Json where
  | str (s : String)
  | arr (elems : List Json)
  | obj (fields : List (String × Json))

/-- Whether a JSON value is an object. -/
def Json.isObj : Json → Bool
  | .obj _ => true
  | _ => false

/-- The basic `typeMap` of `getTypeDefinition` (unnamed/part_006 lines
148-156), consulted before the array and union cases. -/
def typeMapLookup (t : List Char) : Option Json :=
  if t = "string".toList then some (.obj [("type", .str "string")])
  else if t = "number".toList then some (.obj [("type", .str "number")])
  else if t = "boolean".toList then some (.obj [("type", .str "boolean")])
  else if t = "Date".toList then
    some (.obj [("type", .str "string"), ("format", .str "date-time")])
  else if t = "any".toList then some (.obj [("type", .str "object")])
  else if t = "object".toList then some (.obj [("type", .str "object")])
  else if t = "array".toList then
    some (.obj [("type", .str "array"), ("items", .obj [])])
  else none

/-- Every value stored in the type map is a JSON object. -/
theorem typeMapLookup_isObj {t : List Char} {j : Json}
    (h : typeMapLookup t = some j) : j.isObj = true := by
  unfold typeMapLookup at h
  split_ifs at h <;> (injection h with h; subst h; rfl)

/-- The three-character separator " | " of the union case. -/
def sepChars : List Char := [' ', '|', ' ']

/-- Split a character list at the first occurrence of " | ": the part
before and the part after, or `none` when the separator does not occur
(JavaScript `includes(' | ')` is `(findSep l).isSome`). -/
def findSep : List Char → Option (List Char × List Char)
  | [] => none
  | c :: rest =>
      if sepChars.isPrefixOf (c :: rest) then
        some ([], (c :: rest).drop sepChars.length)
      else
        match findSep rest with
        | some (b, a) => some (c :: b, a)
        | none => none

/-- A successful split accounts for the whole list: the three separator
characters sit between the two parts. -/
theorem findSep_length (l : List Char) :
    ∀ b a, findSep l = some (b, a) → l.length = b.length + 3 + a.length := by
  induction l with
  | nil =>
      intro b a h
      simp [findSep] at h
  | cons c rest ih =>
      intro b a h
      unfold findSep at h
      split_ifs at h with hp
      · have hpre : sepChars <+: (c :: rest) := by
          rwa [← List.isPrefixOf_iff_prefix]
        have hle : sepChars.length ≤ (c :: rest).length := hpre.length_le
        simp only [Option.some.injEq, Prod.mk.injEq] at h
        obtain ⟨h1, h2⟩ := h
        subst h1
        subst h2
        simp only [List.length_drop]
        simp only [sepChars, List.length_cons] at hle ⊢
        omega
      · cases hfs : findSep rest with
        | none =>
            rw [hfs] at h
            simp at h
        | some ba =>
            obtain ⟨b0, a0⟩ := ba
            rw [hfs] at h
            simp only [Option.some.injEq, Prod.mk.injEq] at h
            obtain ⟨h1, h2⟩ := h
            subst h1
            subst h2
            have := ih b0 a0 hfs
            simp only [List.length_cons]
            omega

/-- Both parts of a successful split are strictly shorter than the input. -/
theorem findSep_pieces_lt {l b a : List Char}
    (h : findSep l = some (b, a)) :
    b.length < l.length ∧ a.length < l.length := by
  have := findSep_length l b a h
  omega

/-- JavaScript `split(' | ')`: repeatedly split off the part before the
first separator occurrence. -/
def splitSep (l : List Char) : List (List Char) :=
  match h : findSep l with
  | none => [l]
  | some (b, a) => b :: splitSep a
termination_by l.length
decreasing_by
  exact (findSep_pieces_lt h).2

/-- Every piece produced by `splitSep` is no longer than the input. -/
theorem mem_splitSep_length (l p : List Char) (hp : p ∈ splitSep l) :
    p.length ≤ l.length := by
  unfold splitSep at hp
  split at hp
  · rcases List.mem_singleton.mp hp with rfl
    exact le_refl _
  · next b a heq =>
      rcases List.mem_cons.mp hp with rfl | hmem
      · exact le_of_lt (findSep_pieces_lt heq).1
      · have h1 := mem_splitSep_length a p hmem
        have h2 := (findSep_pieces_lt heq).2
        omega
termination_by l.length
decreasing_by
  exact (findSep_pieces_lt (by assumption)).2

/-- When the separator occurs, every piece is strictly shorter than the
input. -/
theorem mem_splitSep_lt {l p : List Char} {x : List Char × List Char}
    (hf : findSep l = some x) (hp : p ∈ splitSep l) :
    p.length < l.length := by
  unfold splitSep at hp
  split at hp
  · next heq =>
      rw [heq] at hf
      exact absurd hf (by simp)
  · next b a heq =>
      rcases List.mem_cons.mp hp with rfl | hmem
      · exact (findSep_pieces_lt heq).1
      · have h1 := mem_splitSep_length a p hmem
        have h2 := (findSep_pieces_lt heq).2
        omega

/-- JavaScript `String.prototype.trim` on a character list. -/
def trimChars (l : List Char) : List Char :=
  ((l.dropWhile Char.isWhitespace).reverse.dropWhile Char.isWhitespace).reverse

/-- Trimming never lengthens a list. -/
theorem trimChars_length_le (l : List Char) :
    (trimChars l).length ≤ l.length := by
  unfold trimChars
  calc ((l.dropWhile Char.isWhitespace).reverse.dropWhile
          Char.isWhitespace).reverse.length
      = ((l.dropWhile Char.isWhitespace).reverse.dropWhile
          Char.isWhitespace).length := List.length_reverse _
    _ ≤ (l.dropWhile Char.isWhitespace).reverse.length :=
        (List.dropWhile_suffix _).length_le
    _ = (l.dropWhile Char.isWhitespace).length := List.length_reverse _
    _ ≤ l.length := (List.dropWhile_suffix _).length_le

/-- `getTypeDefinition` (unnamed/part_006 lines 146-182): the basic type
map first; then a trailing "[]" yields `{ type: 'array', items: ... }`
with the base type's definition as items; then a " | " union yields
`{ anyOf: [...] }` over the trimmed alternatives; otherwise the default
`{ type: 'object' }`.  Each recursive call is on a strictly shorter
character list, which is the termination measure. -/
def getTypeDefinition (t : List Char) : Json :=
  match typeMapLookup t with
  | some j => j
  | none =>
      match hr : t.reverse with
      | ']' :: '[' :: base =>
          Json.obj [("type", Json.str "array"),
                    ("items", getTypeDefinition base.reverse)]
      | _ =>
          match hf : findSep t with
          | some _ =>
              Json.obj [("anyOf", Json.arr ((splitSep t).attach.map
                (fun p => getTypeDefinition (trimChars p.1))))]
          | none => Json.obj [("type", Json.str "object")]
termination_by t.length
decreasing_by
  · have hlen : t.length = base.length + 2 := by
      have h2 := congrArg List.length hr
      simp only [List.length_reverse, List.length_cons] at h2
      omega
    simp only [List.length_reverse]
    omega
  · have h1 := mem_splitSep_lt hf p.2
    have h2 := trimChars_length_le p.1
    omega

end SchemaGen

namespace SchemaGen

/-- Decidable form of JavaScript `endsWith('[]')` on a character list. -/
def endsWithBrackets (t : List Char) : Bool :=
  match t.reverse with
  | ']' :: '[' :: _ => true
  | _ => false

/-- A list that does not end in "[]" has no reverse of the bracket
shape. -/
theorem endsWithBrackets_false {t : List Char}
    (h : endsWithBrackets t = false) :
    ∀ base, t.reverse ≠ ']' :: '[' :: base := by
  intro base hb
  unfold endsWithBrackets at h
  rw [hb] at h
  simp at h

/-- `getTypeDefinition` always returns a JSON object: the map values,
the array wrapper, the anyOf wrapper and the default are all objects. -/
theorem getTypeDefinition_isObj (t : List Char) :
    (getTypeDefinition t).isObj = true := by
  unfold getTypeDefinition
  split
  · next j hj => exact typeMapLookup_isObj hj
  · split
    · rfl
    · split
      · rfl
      · rfl

/-- When none of the three recognizing cases applies the result is the
default `{ type: 'object' }`. -/
theorem getTypeDefinition_default (t : List Char)
    (h1 : typeMapLookup t = none)
    (h2 : endsWithBrackets t = false)
    (h3 : findSep t = none) :
    getTypeDefinition t = Json.obj [("type", Json.str "object")] := by
  unfold getTypeDefinition
  rw [h1]
  dsimp only
  split
  · next base hr => exact absurd hr (endsWithBrackets_false h2 base)
  · split
    · next x heq => rw [h3] at heq; exact absurd heq (by simp)
    · rfl

end SchemaGen

/-- C10: getTypeDefinition terminates on every input type string — its
Lean embedding is a total function whose termination measure is the
string length, strictly decreased by both the trailing-"[]" call and the
union-alternative calls — and it always returns a JSON object, with
`{ type: 'object' }` as the default for unrecognized types. -/
theorem claim_C10_getTypeDefinition_total (t : List Char) :
    (SchemaGen.getTypeDefinition t).isObj = true ∧
    (SchemaGen.typeMapLookup t = none →
      SchemaGen.endsWithBrackets t = false →
      SchemaGen.findSep t = none →
      SchemaGen.getTypeDefinition t =
        SchemaGen.Json.obj [("type", SchemaGen.Json.str "object")]) :=
  ⟨SchemaGen.getTypeDefinition_isObj t,
   fun h1 h2 h3 => SchemaGen.getTypeDefinition_default t h1 h2 h3⟩

/-- C10 witness: the unrecognized type string "foo" yields the default
object. -/
theorem claim_C10_getTypeDefinition_total_witness :
    (SchemaGen.getTypeDefinition "foo".toList).isObj = true ∧
    SchemaGen.getTypeDefinition "foo".toList =
      SchemaGen.Json.obj [("type", SchemaGen.Json.str "object")] :=
  ⟨(claim_C10_getTypeDefinition_total "foo".toList).1,
   (claim_C10_getTypeDefinition_total "foo".toList).2 rfl (by decide) rfl⟩
